import Mathlib

/-!
Shallow embedding of the streaming front-end logic of `my-local-ai`
(`src/streamlit-front-end/app.py`, `app-v2.py`, `app-v4.py`).

The embedding models:
* Python string falsiness (emptiness) and `str.strip` with the full
  CPython `str.isspace` whitespace table;
* the JSON values produced by `json.loads` and the subset of Python
  dict/truthiness semantics the code relies on;
* a line-level JSON parser standing in for `json.loads` (numbers are
  modelled as integers; a fractional or exponent literal makes the parse
  fail, which no input of interest contains);
* the chat stream consumer `stream_chat_ollama`, the module-level chat
  submission handler, the pull stream consumer `pull_model_stream`, the
  pull button handler and the catalog query `get_pulled_models`.

Python exceptions are modelled explicitly: a raised exception appears
either as a dedicated terminal constructor (for the stream consumer) or
as `Option.none` (for functions whose callers do not catch).
-/

/-- JSON inter-token whitespace (space, tab, LF, CR): exactly the four
characters `json.loads` skips between tokens. -/
def isPyWs (c : Char) : Bool :=
  c = ' ' || c = '\t' || c = '\n' || c = '\r'

/-- Drop leading JSON whitespace. -/
def skipWs (l : List Char) : List Char :=
  List.dropWhile isPyWs l

/-- The characters recognized as whitespace by Python's `str.isspace`,
which is also the set removed by `str.strip()` with no argument: the
CPython Unicode whitespace table (0x09-0x0D, 0x1C-0x1F, 0x20, 0x85,
0xA0, 0x1680, 0x2000-0x200A, 0x2028, 0x2029, 0x202F, 0x205F, 0x3000).
This is a strict superset of the JSON whitespace set `isPyWs`. -/
def isPyStripWs (c : Char) : Bool :=
  c = ' ' || c = '\t' || c = '\n' || c = '\x0b' || c = '\x0c' || c = '\r' ||
  c = '\x1c' || c = '\x1d' || c = '\x1e' || c = '\x1f' || c = '\x85' || c = '\xa0' ||
  c = '\u1680' || ('\u2000' ≤ c && c ≤ '\u200a') ||
  c = '\u2028' || c = '\u2029' || c = '\u202f' || c = '\u205f' || c = '\u3000'

/-- Characters of `s.strip()` (Python `str.strip` with defaults). -/
def pyStripChars (l : List Char) : List Char :=
  List.rdropWhile isPyStripWs (List.dropWhile isPyStripWs l)

/-- Python `s.strip()`. -/
def pyStrip (s : String) : String :=
  String.mk (pyStripChars s.data)

/-- A chat message: Python dict `{"role": r, "content": c}` as used by the
conversation log. -/
structure Message where
  role : String
  content : String
deriving DecidableEq

/-- JSON values as decoded by `json.loads`.  Objects keep the textual
key-value order; dict semantics (last occurrence of a duplicate key wins)
live in `objGet`. -/
inductive Json where
  | null
  | bool (b : Bool)
  | num (n : Int)
  | str (s : String)
  | arr (xs : List Json)
  | obj (kvs : List (String × Json))

/-- Python dict lookup `d[k]` / `d.get(k)` on a decoded object: the last
binding of a duplicated key wins, as in a Python dict built by
`json.loads`. -/
def objGet (kvs : List (String × Json)) (k : String) : Option Json :=
  kvs.foldl (fun acc kv => if kv.1 = k then some kv.2 else acc) none

/-- Python `d.get(k, dflt)`. -/
def objGetD (kvs : List (String × Json)) (k : String) (dflt : Json) : Json :=
  (objGet kvs k).getD dflt

/-- Python truthiness of a decoded JSON value (`if chunk:` etc.). -/
def pyTruthy : Json → Bool
  | Json.null => false
  | Json.bool b => b
  | Json.num n => decide (n ≠ 0)
  | Json.str s => decide (s ≠ "")
  | Json.arr xs => !xs.isEmpty
  | Json.obj kvs => !kvs.isEmpty

/-- Python truthiness of `d.get(k)` where a missing key gives `None`. -/
def pyTruthyOpt : Option Json → Bool
  | none => false
  | some v => pyTruthy v

/-- String-body scanner of the JSON parser: consumes characters after an
opening quote up to the closing quote, handling the single-character
escapes (a `\u` escape is out of the modelled subset and fails). -/
def parseJStringAux : List Char → List Char → Option (String × List Char)
  | _, [] => none
  | acc, c :: rest =>
    if c = '"' then some (String.mk acc.reverse, rest)
    else if c = '\\' then
      match rest with
      | [] => none
      | e :: rest2 =>
        if e = '"' then parseJStringAux ('"' :: acc) rest2
        else if e = '\\' then parseJStringAux ('\\' :: acc) rest2
        else if e = '/' then parseJStringAux ('/' :: acc) rest2
        else if e = 'n' then parseJStringAux ('\n' :: acc) rest2
        else if e = 't' then parseJStringAux ('\t' :: acc) rest2
        else if e = 'r' then parseJStringAux ('\r' :: acc) rest2
        else if e = 'b' then parseJStringAux ('\x08' :: acc) rest2
        else if e = 'f' then parseJStringAux ('\x0c' :: acc) rest2
        else none
    else parseJStringAux (c :: acc) rest

/-- Digit accumulator for the number scanner. -/
def parseDigits : List Char → Nat → (Nat × List Char)
  | [], acc => (acc, [])
  | c :: rest, acc =>
    if c.isDigit then parseDigits rest (10 * acc + (c.toNat - '0'.toNat))
    else (acc, c :: rest)

/-- Unsigned number scanner; a following `.`/`e`/`E` (a float literal) is
outside the modelled subset and fails the parse. -/
def parseNumTail (l : List Char) : Option (Int × List Char) :=
  match l with
  | [] => none
  | c :: _ =>
    if c.isDigit then
      let p := parseDigits l 0
      match p.2 with
      | [] => some ((p.1 : Int), [])
      | d :: _ =>
        if d = '.' || d = 'e' || d = 'E' then none
        else some ((p.1 : Int), p.2)
    else none

/-- Signed number scanner. -/
def parseNumber (l : List Char) : Option (Json × List Char) :=
  match l with
  | '-' :: rest => (parseNumTail rest).map (fun p => (Json.num (-p.1), p.2))
  | _ => (parseNumTail l).map (fun p => (Json.num p.1, p.2))

/-- Literal matcher (`true` / `false` / `null` tails). -/
def dropLit : List Char → List Char → Option (List Char)
  | [], l => some l
  | _ :: _, [] => none
  | c :: cs, d :: ds => if c = d then dropLit cs ds else none

mutual

/-- Fuel-indexed JSON value parser standing in for `json.loads`. -/
def parseValue : Nat → List Char → Option (Json × List Char)
  | 0, _ => none
  | Nat.succ fuel, l =>
    match l with
    | [] => none
    | c :: rest =>
      if c = '"' then (parseJStringAux [] rest).map (fun p => (Json.str p.1, p.2))
      else if c = '{' then
        match skipWs rest with
        | '}' :: r => some (Json.obj [], r)
        | l2 => parseObjMembers fuel l2 []
      else if c = '[' then
        match skipWs rest with
        | ']' :: r => some (Json.arr [], r)
        | l2 => parseArrElems fuel l2 []
      else if c = 't' then (dropLit ['r', 'u', 'e'] rest).map (fun r => (Json.bool true, r))
      else if c = 'f' then (dropLit ['a', 'l', 's', 'e'] rest).map (fun r => (Json.bool false, r))
      else if c = 'n' then (dropLit ['u', 'l', 'l'] rest).map (fun r => (Json.null, r))
      else parseNumber (c :: rest)

/-- Object member list parser (after `{` and leading whitespace, at least
one member expected). -/
def parseObjMembers : Nat → List Char → List (String × Json) → Option (Json × List Char)
  | 0, _, _ => none
  | Nat.succ fuel, l, acc =>
    match l with
    | '"' :: rest =>
      match parseJStringAux [] rest with
      | none => none
      | some (key, r1) =>
        match skipWs r1 with
        | ':' :: r2 =>
          match parseValue fuel (skipWs r2) with
          | none => none
          | some (v, r3) =>
            match skipWs r3 with
            | ',' :: r4 => parseObjMembers fuel (skipWs r4) ((key, v) :: acc)
            | '}' :: r4 => some (Json.obj ((key, v) :: acc).reverse, r4)
            | _ => none
        | _ => none
    | _ => none

/-- Array element list parser (after `[` and leading whitespace, at least
one element expected). -/
def parseArrElems : Nat → List Char → List Json → Option (Json × List Char)
  | 0, _, _ => none
  | Nat.succ fuel, l, acc =>
    match parseValue fuel l with
    | none => none
    | some (v, r1) =>
      match skipWs r1 with
      | ',' :: r2 => parseArrElems fuel (skipWs r2) (v :: acc)
      | ']' :: r2 => some (Json.arr (v :: acc).reverse, r2)
      | _ => none

end

/-- Model of `json.loads` on one streamed line: parse a single JSON value
surrounded by optional whitespace; anything else (including an empty or
whitespace-only line) fails, mirroring `json.JSONDecodeError`. -/
def json_loads (s : String) : Option Json :=
  match parseValue (2 * s.length + 2) (skipWs s.data) with
  | none => none
  | some (v, rest) => if skipWs rest = [] then some v else none

/-- Result of the per-line classification inside `stream_chat_ollama`:
`filtered` is the `if not line: continue` path (Python falsiness of a
string is emptiness), `malformed` is a `json.JSONDecodeError` skipped by
the `except` clause, `record` is a successfully decoded fragment. -/
inductive LineResult where
  | filtered
  | malformed
  | record (j : Json)

/-- Per-line classification of `stream_chat_ollama` (app.py lines 44-52). -/
def decode_line (line : String) : LineResult :=
  if line = "" then LineResult.filtered
  else
    match json_loads line with
    | none => LineResult.malformed
    | some j => LineResult.record j

/-- Reason the per-record step stops the stream: `doneBreak` is the
`break` on a truthy `done`, `errRaise` is `raise RuntimeError(data["error"])`,
`crash` is any other Python exception raised by the step (for a decoded
non-object record, `"error" in data` / `data.get` raise `TypeError` or
`AttributeError`; same for `msg.get` when `message` maps to a non-object). -/
inductive ChatStop where
  | doneBreak
  | errRaise (v : Json)
  | crash

/-- Processing of one decoded record by `stream_chat_ollama`
(app.py lines 54-64): the error key is checked first and raises; otherwise
`message.content` is yielded when truthy, then a truthy `done` breaks. -/
def chat_step (data : Json) : List Json × Option ChatStop :=
  match data with
  | Json.obj kvs =>
    match objGet kvs "error" with
    | some v => ([], some (ChatStop.errRaise v))
    | none =>
      match objGetD kvs "message" (Json.obj []) with
      | Json.obj mkvs =>
        let chunk := objGetD mkvs "content" (Json.str "")
        let ys := if pyTruthy chunk then [chunk] else []
        if pyTruthyOpt (objGet kvs "done") then (ys, some ChatStop.doneBreak)
        else (ys, none)
      | _ => ([], some ChatStop.crash)
  | _ => ([], some ChatStop.crash)

/-- Fold of `stream_chat_ollama` over the transported lines: the yielded
chunks so far, and the stop reason if the loop was cut short. -/
def chat_fold : List String → List Json × Option ChatStop
  | [] => ([], none)
  | l :: ls =>
    match decode_line l with
    | LineResult.filtered => chat_fold ls
    | LineResult.malformed => chat_fold ls
    | LineResult.record d =>
      match chat_step d with
      | (ys, some st) => (ys, some st)
      | (ys, none) =>
        let r := chat_fold ls
        (ys ++ r.1, r.2)

/-- Behaviour of the HTTP transport underneath one chat request:
either the POST / `raise_for_status` fails up front, or a sequence of
lines is delivered and `iter_lines` optionally raises a
`requests.RequestException` after them. -/
inductive ChatTransport where
  | fail (msg : String)
  | ok (lines : List String) (tailErr : Option String)

/-- How the generator `stream_chat_ollama` terminates. -/
inductive ChatEnd where
  | completed
  | upstream (v : Json)
  | transportFail (msg : String)
  | crashed

/-- Wrapped message of the `except requests.exceptions.RequestException`
clause (app.py line 67). -/
def wrap_transport_msg (base_url msg : String) : String :=
  "Failed to reach Ollama at " ++ base_url ++ ": " ++ msg

/-- Complete observable behaviour of `stream_chat_ollama` (app.py lines
41-67) for a given transport behaviour: the yielded chunks, and how the
generator terminates.  A `RuntimeError` raised for an upstream error
record is not a `RequestException`, so it propagates unwrapped; a
transport error raised by `iter_lines` after the delivered lines is
wrapped exactly like an up-front connection failure. -/
def stream_chat_result (base_url : String) (t : ChatTransport) : List Json × ChatEnd :=
  match t with
  | ChatTransport.fail msg => ([], ChatEnd.transportFail (wrap_transport_msg base_url msg))
  | ChatTransport.ok lines tailErr =>
    match chat_fold lines with
    | (ys, some ChatStop.doneBreak) => (ys, ChatEnd.completed)
    | (ys, some (ChatStop.errRaise v)) => (ys, ChatEnd.upstream v)
    | (ys, some ChatStop.crash) => (ys, ChatEnd.crashed)
    | (ys, none) =>
      match tailErr with
      | some e => (ys, ChatEnd.transportFail (wrap_transport_msg base_url e))
      | none => (ys, ChatEnd.completed)

/-- Is this decoded chunk a Python `str`?  `full_response += chunk` in the
handler raises `TypeError` on anything else. -/
def isStrJson : Json → Bool
  | Json.str _ => true
  | _ => false

/-- Concatenation of the yielded string chunks (`full_response`). -/
def concatStrs (ys : List Json) : String :=
  ys.foldl (fun a j => match j with | Json.str s => a ++ s | _ => a) ""

/-- Value of `full_response` after the `try`/`except` block of the chat
submission handler (app.py lines 88-103): the concatenation of the yields
when the stream completed normally and every chunk was a string, and `""`
otherwise — the `except Exception` clause catches the upstream
`RuntimeError`, the wrapped transport error and any dynamic-type crash,
and explicitly resets `full_response` to the empty string. -/
def handler_response (base_url : String) (t : ChatTransport) : String :=
  match stream_chat_result base_url t with
  | (ys, ChatEnd.completed) => if ys.all isStrJson then concatStrs ys else ""
  | _ => ""

/-- Python `list.append` on the conversation log
(`st.session_state.messages.append`). -/
def messages_append (c : List Message) (m : Message) : List Message :=
  c ++ [m]

/-- The module-level chat submission handler (app.py lines 79-107): append
the user turn, stream the response, and append an assistant turn only when
`full_response.strip()` is truthy. -/
def run_chat_handler (base_url : String) (history : List Message) (prompt : String)
    (t : ChatTransport) : List Message :=
  if pyStrip (handler_response base_url t) = "" then
    messages_append history (Message.mk "user" prompt)
  else
    messages_append (messages_append history (Message.mk "user" prompt))
      (Message.mk "assistant" (handler_response base_url t))

/-- Sampling options of the chat request body (`payload["options"]`).
`num_predict = none` models the key being absent from the dict;
`temperature` is carried through uninterpreted (the `float()` conversion
is the identity on the value). -/
structure SamplingOptions where
  temperature : Rat
  num_predict : Option Int

/-- The chat request body built by `stream_chat_ollama` (app.py lines
32-39): `num_predict` is added only when `max_tokens and int(max_tokens) > 0`,
i.e. when `max_tokens` is truthy (non-zero) and positive. -/
structure ChatPayload where
  model : String
  messages : List Message
  stream : Bool
  options : SamplingOptions

/-- Request body construction of `stream_chat_ollama` (app.py lines 32-39). -/
def build_payload (model : String) (messages : List Message) (temperature : Rat)
    (max_tokens : Int) : ChatPayload :=
  { model := model
    messages := messages
    stream := true
    options :=
      { temperature := temperature
        num_predict :=
          if max_tokens ≠ 0 ∧ max_tokens > 0 then some max_tokens else none } }

/-- Behaviour of the transport underneath one pull request
(app-v2.py `pull_model_stream`): the raw lines delivered by `iter_lines`
(already UTF-8 decoded; `errors="replace"` makes decoding total) and an
optional `requests.RequestException` raised either by `requests.post`
/ `raise_for_status` up front (then `delivered = []`) or by `iter_lines`
mid-stream. -/
structure PullTransport where
  delivered : List String
  failure : Option String

/-- The pull stream consumer `pull_model_stream` (app-v2.py lines 34-46):
falsy (empty) raw lines are skipped, every other line is yielded verbatim,
and a transport failure is reported in-band as a single final
`"ERROR: ..."` item — the generator itself never raises. -/
def pull_model_stream (model_name : String) (t : PullTransport) : List String :=
  (t.delivered.filter (fun raw => raw ≠ "")) ++
    (match t.failure with
     | some e => ["ERROR: " ++ e]
     | none => [])

/-- Outcome reported by the pull button handler. -/
inductive PullOutcome where
  | success
  | failure (shown : String)

/-- The pull button handler (app-v2.py lines 93-111): fold the streamed
lines keeping only the last one, then decide the outcome solely by
membership of the model name in a fresh catalog listing; on failure the
last progress line is surfaced, with the `<no output>` placeholder when
`last_line` is still the falsy initial `""`. -/
def pull_button_action (streamLines : List String) (new_pulled : List String)
    (pull_choice : String) : PullOutcome :=
  let last_line := streamLines.foldl (fun _ line => line) ""
  if pull_choice ∈ new_pulled then PullOutcome.success
  else
    PullOutcome.failure
      ("Last output from pull:\n" ++ (if last_line = "" then "<no output>" else last_line))

/-- Behaviour of the `GET {base}/api/tags` round trip underneath
`get_pulled_models`: either a `requests.RequestException` with its text,
or a decoded JSON body. -/
inductive TagsQuery where
  | fail (msg : String)
  | ok (data : Json)

/-- Second component of the heterogeneous pair returned by
`get_pulled_models`: the error text `str(e)` on failure, the raw decoded
body on success. -/
inductive TagsSecond where
  | errText (s : String)
  | payload (d : Json)

/-- The comprehension `[m["name"] for m in data.get("models", [])]`
(app-v2.py line 29).  `none` models a raised exception: `KeyError` when an
entry lacks the key, `TypeError` when an entry is not a dict. -/
def modelNames : List Json → Option (List Json)
  | [] => some []
  | m :: ms =>
    match m with
    | Json.obj kvs =>
      match objGet kvs "name" with
      | some v => (modelNames ms).map (fun ns => v :: ns)
      | none => none
    | _ => none

/-- Name extraction used only to state what `modelNames` returns. -/
def nameOf : Json → Json
  | Json.obj kvs => (objGet kvs "name").getD Json.null
  | _ => Json.null

/-- The catalog query `get_pulled_models` (app-v2.py lines 23-32): a
transport failure is caught and returned in-band as `([], str(e))`; on a
decoded body the model names are listed in order.  The outer `none` models
an uncaught exception (`r.json()` raising aside, `data.get` on a non-dict
body, iterating a non-list `models` value, or `modelNames` raising), none
of which is a `requests.RequestException` and so none is caught. -/
def get_pulled_models (q : TagsQuery) : Option (List Json × TagsSecond) :=
  match q with
  | TagsQuery.fail msg => some ([], TagsSecond.errText msg)
  | TagsQuery.ok data =>
    match data with
    | Json.obj kvs =>
      match objGetD kvs "models" (Json.arr []) with
      | Json.arr ms => (modelNames ms).map (fun ns => (ns, TagsSecond.payload (Json.obj kvs)))
      | _ => none
    | _ => none

/-! Helper lemmas. -/

/-- The value parser fails on exhausted input at any fuel. -/
theorem parseValue_nil (fuel : Nat) : parseValue fuel [] = none := by
  cases fuel <;> simp [parseValue]

/-- A whitespace-only line is not valid JSON: `json.loads` fails on it. -/
theorem json_loads_ws (s : String) (h : ∀ c ∈ s.data, isPyWs c) : json_loads s = none := by
  have h0 : skipWs s.data = [] := by
    unfold skipWs
    exact List.dropWhile_eq_nil_iff.mpr h
  unfold json_loads
  rw [h0, parseValue_nil]

/-- A whitespace-only line (empty or not) leaves the stream fold unchanged. -/
theorem chat_fold_ws_cons (s : String) (rest : List String) (h : ∀ c ∈ s.data, isPyWs c) :
    chat_fold (s :: rest) = chat_fold rest := by
  by_cases hs : s = ""
  · simp [chat_fold, decode_line, hs]
  · simp [chat_fold, decode_line, hs, json_loads_ws s h]

/-- Stripping gives the empty list exactly on all-whitespace input
(whitespace in the Python `str.isspace` sense). -/
theorem pyStripChars_eq_nil_iff (l : List Char) :
    pyStripChars l = [] ↔ ∀ c ∈ l, isPyStripWs c := by
  unfold pyStripChars
  rw [List.rdropWhile_eq_nil_iff]
  constructor
  · intro h x hx
    rw [← List.takeWhile_append_dropWhile isPyStripWs l] at hx
    rcases List.mem_append.mp hx with h1 | h2
    · exact List.mem_takeWhile_imp h1
    · exact h x h2
  · intro h x hx
    exact h x ((List.dropWhile_sublist isPyStripWs).mem hx)

/-- Python `s.strip()` is empty exactly when `s` is all whitespace
(whitespace in the Python `str.isspace` sense). -/
theorem pyStrip_eq_empty_iff (s : String) :
    pyStrip s = "" ↔ ∀ c ∈ s.data, isPyStripWs c := by
  constructor
  · intro h
    have h2 : pyStripChars s.data = [] := congrArg String.data h
    exact (pyStripChars_eq_nil_iff s.data).mp h2
  · intro h
    have h2 : pyStripChars s.data = [] := (pyStripChars_eq_nil_iff s.data).mpr h
    unfold pyStrip
    rw [h2]

/-- The last-line fold of the pull handler computes `getLastD`. -/
theorem foldl_last_eq (l : List String) (init : String) :
    l.foldl (fun _ line => line) init = l.getLastD init := by
  induction l generalizing init with
  | nil => rfl
  | cons a t ih => rw [List.foldl_cons, ih, List.getLastD_cons]

/-- When every catalog entry is a dict carrying a name, the comprehension
returns exactly the name fields in order. -/
theorem modelNames_eq_map (ms : List Json)
    (h : ∀ m ∈ ms, ∃ kvs v, m = Json.obj kvs ∧ objGet kvs "name" = some v) :
    modelNames ms = some (ms.map nameOf) := by
  induction ms with
  | nil => rfl
  | cons m rest ih =>
    rcases h m (List.mem_cons_self m rest) with ⟨kvs, v, hm, hv⟩
    subst hm
    have ih2 := ih (fun x hx => h x (List.mem_cons_of_mem _ hx))
    simp [modelNames, hv, ih2, nameOf]

/-! Claim theorems. -/

/-- C1 counterexample: with the mocked stream `content "A"` then
`error "boom"`, a delta was yielded before the error, yet the handler
leaves the conversation log without any assistant turn — the content
already streamed does not remain in the log, contrary to the claim. -/
theorem c1_counterexample :
    (stream_chat_result "http://o"
        (ChatTransport.ok
          ["\x7b\"message\":\x7b\"content\":\"A\"\x7d,\"done\":false\x7d",
           "\x7b\"error\":\"boom\"\x7d"] none)).1 = [Json.str "A"] ∧
    run_chat_handler "http://o" [Message.mk "system" "You are a helpful AI assistant."] "hi"
        (ChatTransport.ok
          ["\x7b\"message\":\x7b\"content\":\"A\"\x7d,\"done\":false\x7d",
           "\x7b\"error\":\"boom\"\x7d"] none) =
      [Message.mk "system" "You are a helpful AI assistant.", Message.mk "user" "hi"] :=
  ⟨rfl, rfl⟩

/-- C1 (amended): when an upstream error fragment terminates the chat
stream, the handler appends no assistant turn at all — the `except`
clause resets the accumulated response, so even content already streamed
before the error is discarded from the conversation log. -/
theorem c1_upstream_error_appends_nothing
    (base_url prompt : String) (history : List Message) (t : ChatTransport) (v : Json)
    (he : (stream_chat_result base_url t).2 = ChatEnd.upstream v) :
    run_chat_handler base_url history prompt t =
      messages_append history (Message.mk "user" prompt) := by
  have hr : handler_response base_url t = "" := by
    unfold handler_response
    rcases hst : stream_chat_result base_url t with ⟨ys, e⟩
    rw [hst] at he
    simp only at he
    subst he
    rfl
  unfold run_chat_handler
  rw [hr]
  rfl

/-- C1 witness: a concrete upstream-error stream for the amended theorem. -/
theorem c1_witness :
    (stream_chat_result "http://o" (ChatTransport.ok ["\x7b\"error\":\"x\"\x7d"] none)).2 =
        ChatEnd.upstream (Json.str "x") ∧
    run_chat_handler "http://o" [] "q" (ChatTransport.ok ["\x7b\"error\":\"x\"\x7d"] none) =
      messages_append [] (Message.mk "user" "q") :=
  ⟨rfl,
   c1_upstream_error_appends_nothing "http://o" "q" []
     (ChatTransport.ok ["\x7b\"error\":\"x\"\x7d"] none) (Json.str "x") rfl⟩

/-- C2: the mocked two-line stream yields exactly the deltas "A" then "B"
and terminates normally with accumulated text "AB"; in general a decoded
record carrying both non-empty content and a truthy done flag yields its
content first and then breaks the stream. -/
theorem c2_content_before_done (base_url : String) :
    stream_chat_result base_url
        (ChatTransport.ok
          ["\x7b\"message\":\x7b\"content\":\"A\"\x7d,\"done\":false\x7d",
           "\x7b\"message\":\x7b\"content\":\"B\"\x7d,\"done\":true\x7d"] none) =
      ([Json.str "A", Json.str "B"], ChatEnd.completed) ∧
    concatStrs [Json.str "A", Json.str "B"] = "AB" ∧
    (∀ kvs mkvs c,
      objGet kvs "error" = none →
      objGet kvs "message" = some (Json.obj mkvs) →
      objGet mkvs "content" = some (Json.str c) →
      c ≠ "" →
      pyTruthyOpt (objGet kvs "done") = true →
      chat_step (Json.obj kvs) = ([Json.str c], some ChatStop.doneBreak)) := by
  refine ⟨rfl, rfl, ?_⟩
  intro kvs mkvs c he hm hc hne hd
  simp [chat_step, objGetD, he, hm, hc, hd, pyTruthy, hne]

/-- C2 witness: a concrete record that is both content-bearing and
terminal. -/
theorem c2_witness :
    chat_step (Json.obj [("message", Json.obj [("content", Json.str "hi")]),
        ("done", Json.bool true)]) =
      ([Json.str "hi"], some ChatStop.doneBreak) :=
  (c2_content_before_done "u").2.2 _ _ "hi" rfl rfl rfl (by decide) rfl

/-- C3: the mocked single-error-line stream terminates abnormally carrying
the message "model not found" with zero deltas; in general any decoded
record containing an error key raises before content or done are even
inspected. -/
theorem c3_error_priority (base_url : String) :
    stream_chat_result base_url
        (ChatTransport.ok ["\x7b\"error\":\"model not found\"\x7d"] none) =
      ([], ChatEnd.upstream (Json.str "model not found")) ∧
    (∀ kvs v, objGet kvs "error" = some v →
      chat_step (Json.obj kvs) = ([], some (ChatStop.errRaise v))) := by
  refine ⟨rfl, ?_⟩
  intro kvs v hv
  simp [chat_step, hv]

/-- C3 witness: the error key wins even when content and done are also
present in the same record. -/
theorem c3_witness :
    chat_step (Json.obj [("error", Json.str "boom"),
        ("message", Json.obj [("content", Json.str "hi")]), ("done", Json.bool true)]) =
      ([], some (ChatStop.errRaise (Json.str "boom"))) :=
  (c3_error_priority "u").2 _ (Json.str "boom") rfl

/-- C4: for every model name, when the transport raises a connection error
up front, the pull stream consumer yields exactly the single in-band item
`"ERROR: <cause>"` and returns normally (its result type is a plain list:
the generator catches the exception and never re-raises). -/
theorem c4_pull_error_in_band (model_name cause : String) :
    pull_model_stream model_name (PullTransport.mk [] (some cause)) = ["ERROR: " ++ cause] ∧
    (pull_model_stream model_name (PullTransport.mk [] (some cause))).length = 1 :=
  ⟨rfl, rfl⟩

/-- C5: after the pull stream is exhausted the outcome is decided solely
by membership of the model name in the fresh catalog listing; on failure
the last observed progress line is surfaced, with the literal
`"<no output>"` placeholder when none was observed. -/
theorem c5_pull_outcome (streamLines new_pulled : List String) (name : String) :
    (name ∈ new_pulled → pull_button_action streamLines new_pulled name = PullOutcome.success) ∧
    (name ∉ new_pulled →
      pull_button_action streamLines new_pulled name =
        PullOutcome.failure ("Last output from pull:\n" ++
          (if streamLines.getLastD "" = "" then "<no output>" else streamLines.getLastD ""))) := by
  constructor
  · intro h
    simp [pull_button_action, h]
  · intro h
    simp [pull_button_action, h, foldl_last_eq]

/-- C5 witness: success on membership, failure with the surfaced last line
otherwise. -/
theorem c5_witness :
    pull_button_action ["pulling manifest"] ["m1"] "m1" = PullOutcome.success ∧
    pull_button_action ["pulling manifest"] [] "m2" =
      PullOutcome.failure "Last output from pull:\npulling manifest" := by
  constructor
  · exact (c5_pull_outcome ["pulling manifest"] ["m1"] "m1").1 (by decide)
  · have h := (c5_pull_outcome ["pulling manifest"] [] "m2").2 (by decide)
    simpa using h

/-- C6 counterexample: a single-space line is not filtered out by the
falsiness check (Python treats only the empty string as falsy); it
reaches `json.loads`, fails, and is classified as a malformed fragment. -/
theorem c6_counterexample :
    decode_line " " = LineResult.malformed ∧ decode_line " " ≠ LineResult.filtered := by
  refine ⟨rfl, ?_⟩
  intro h
  rw [show decode_line " " = LineResult.malformed from rfl] at h
  exact LineResult.noConfusion h

/-- C6 (amended): every empty or whitespace-only raw line contributes no
fragment to the fold — the empty string is removed by the falsiness
filter, while a nonempty whitespace-only line fails JSON decoding and is
silently dropped as malformed; either way the fold is unchanged. -/
theorem c6_ws_lines_yield_nothing :
    (∀ (s : String) (rest : List String), (∀ c ∈ s.data, isPyWs c) →
      chat_fold (s :: rest) = chat_fold rest) ∧
    decode_line "" = LineResult.filtered ∧
    (∀ s : String, s ≠ "" → (∀ c ∈ s.data, isPyWs c) →
      decode_line s = LineResult.malformed) := by
  refine ⟨fun s rest h => chat_fold_ws_cons s rest h, rfl, ?_⟩
  intro s hs h
  simp [decode_line, hs, json_loads_ws s h]

/-- C6 witness: concrete whitespace-only lines for the amended theorem. -/
theorem c6_witness :
    chat_fold [" \t"] = chat_fold [] ∧ decode_line "\t" = LineResult.malformed :=
  ⟨c6_ws_lines_yield_nothing.1 " \t" [] (by decide),
   c6_ws_lines_yield_nothing.2.2 "\t" (by decide) (by decide)⟩

/-- C7: a `max_tokens` of zero (also the Python default when the argument
is absent) leaves `num_predict` out of the request options entirely, and
any positive `max_tokens` puts exactly that value in. -/
theorem c7_num_predict (model : String) (messages : List Message) (temperature : Rat) :
    (build_payload model messages temperature 0).options.num_predict = none ∧
    (∀ mt : Int, 0 < mt →
      (build_payload model messages temperature mt).options.num_predict = some mt) := by
  refine ⟨rfl, ?_⟩
  intro mt h
  simp [build_payload, h, ne_of_gt h]

/-- C7 witness: concrete zero and positive token budgets. -/
theorem c7_witness :
    (build_payload "llama3.1:8b" [] 1 0).options.num_predict = none ∧
    (build_payload "llama3.1:8b" [] 1 200).options.num_predict = some 200 :=
  ⟨(c7_num_predict "llama3.1:8b" [] 1).1,
   (c7_num_predict "llama3.1:8b" [] 1).2 200 (by decide)⟩

/-- C8: appending a message to a conversation keeps the whole history as
an unchanged prefix, grows the length by one and puts the new message
last. -/
theorem c8_append_preserves (C : List Message) (M : Message) :
    (messages_append C M).length = C.length + 1 ∧
    (messages_append C M).take C.length = C ∧
    (messages_append C M).getLast? = some M := by
  refine ⟨?_, ?_, ?_⟩
  · simp [messages_append]
  · exact List.take_left C [M]
  · exact List.getLast?_concat C

/-- C9: after a normally completed chat stream, an assistant turn is
appended to the conversation log exactly when the accumulated response
contains at least one non-whitespace character (`full_response.strip()`
truthiness); a whitespace-only or empty response leaves the log with only
the user turn added. -/
theorem c9_assistant_iff_nonws (base_url prompt : String) (history : List Message)
    (t : ChatTransport) (hc : (stream_chat_result base_url t).2 = ChatEnd.completed) :
    run_chat_handler base_url history prompt t =
      if (handler_response base_url t).data.any (fun c => !isPyStripWs c) then
        history ++ [Message.mk "user" prompt,
          Message.mk "assistant" (handler_response base_url t)]
      else history ++ [Message.mk "user" prompt] := by
  have key : (pyStrip (handler_response base_url t) = "") ↔
      ((handler_response base_url t).data.any (fun c => !isPyStripWs c) = false) := by
    rw [pyStrip_eq_empty_iff, List.any_eq_false]
    simp
  unfold run_chat_handler messages_append
  by_cases h : pyStrip (handler_response base_url t) = ""
  · have ha := key.mp h
    rw [if_pos h]
    simp [ha]
  · have ha : (handler_response base_url t).data.any (fun c => !isPyStripWs c) = true := by
      cases hb : (handler_response base_url t).data.any (fun c => !isPyStripWs c) with
      | false => exact absurd (key.mpr hb) h
      | true => rfl
    rw [if_neg h]
    simp [ha, List.append_assoc]

/-- C9 witness: a completed stream whose only delta is a single form feed
(arriving via the JSON escape) — the accumulated response is
whitespace-only in Python's sense, `strip()` empties it, and no assistant
turn is appended. -/
theorem c9_witness :
    (stream_chat_result "u"
        (ChatTransport.ok
          ["\x7b\"message\":\x7b\"content\":\"\\f\"\x7d,\"done\":true\x7d"] none)).2 =
      ChatEnd.completed ∧
    run_chat_handler "u" [] "q"
        (ChatTransport.ok
          ["\x7b\"message\":\x7b\"content\":\"\\f\"\x7d,\"done\":true\x7d"] none) =
      (if (handler_response "u"
            (ChatTransport.ok
              ["\x7b\"message\":\x7b\"content\":\"\\f\"\x7d,\"done\":true\x7d"] none)).data.any
            (fun c => !isPyStripWs c) then
        [] ++ [Message.mk "user" "q",
          Message.mk "assistant"
            (handler_response "u"
              (ChatTransport.ok
                ["\x7b\"message\":\x7b\"content\":\"\\f\"\x7d,\"done\":true\x7d"] none))]
      else [] ++ [Message.mk "user" "q"]) :=
  ⟨rfl,
   c9_assistant_iff_nonws "u" "q" []
     (ChatTransport.ok
       ["\x7b\"message\":\x7b\"content\":\"\\f\"\x7d,\"done\":true\x7d"] none) rfl⟩

/-- C10: the catalog query returns `([], error text)` in-band on every
transport failure, and on a decoded body whose entries are dicts carrying
a name it returns exactly those name fields in their original order. -/
theorem c10_catalog_total_and_names :
    (∀ msg, get_pulled_models (TagsQuery.fail msg) = some ([], TagsSecond.errText msg)) ∧
    (∀ kvs ms, objGetD kvs "models" (Json.arr []) = Json.arr ms →
      (∀ m ∈ ms, ∃ mkvs v, m = Json.obj mkvs ∧ objGet mkvs "name" = some v) →
      get_pulled_models (TagsQuery.ok (Json.obj kvs)) =
        some (ms.map nameOf, TagsSecond.payload (Json.obj kvs))) := by
  refine ⟨fun msg => rfl, ?_⟩
  intro kvs ms hmod h
  simp [get_pulled_models, hmod, modelNames_eq_map ms h]

/-- C10 witness: a transport failure and a one-model catalog body. -/
theorem c10_witness :
    get_pulled_models (TagsQuery.fail "conn refused") =
      some ([], TagsSecond.errText "conn refused") ∧
    get_pulled_models
        (TagsQuery.ok (Json.obj
          [("models", Json.arr [Json.obj [("name", Json.str "llama3.1:8b")]])])) =
      some ([Json.str "llama3.1:8b"],
        TagsSecond.payload (Json.obj
          [("models", Json.arr [Json.obj [("name", Json.str "llama3.1:8b")]])])) := by
  constructor
  · exact c10_catalog_total_and_names.1 "conn refused"
  · have hnames : ∀ m ∈ [Json.obj [("name", Json.str "llama3.1:8b")]],
        ∃ mkvs v, m = Json.obj mkvs ∧ objGet mkvs "name" = some v := by
      intro m hm
      rw [List.mem_singleton] at hm
      subst hm
      exact ⟨_, _, rfl, rfl⟩
    have h := c10_catalog_total_and_names.2
      [("models", Json.arr [Json.obj [("name", Json.str "llama3.1:8b")]])]
      [Json.obj [("name", Json.str "llama3.1:8b")]] rfl hnames
    simpa using h
